import Mathlib

/-!
Shallow embedding of `src/main/cpp/rocketmq/PullConsumerImpl.cpp` from the
rocketmq-clients C++ pull-consumer, together with theorems settling the
frozen claims about it.  Asynchronous completion callbacks are embedded as
pure functions from the completion datum to the action they perform on the
caller-visible promise/handler; protobuf request/response messages are
embedded as Lean structures carrying the fields the code touches.
-/

namespace RocketMQ

/-- A partition of a topic route: `Partition` in the repository (declared
outside this translation unit).  Modelled from the spec: "each partition
carrying a broker address and queue identifier". -/
structure Partition where
  topicName : String
  brokerAddress : String
  queueId : Int
deriving DecidableEq, Repr

/-- Caller-facing queue reference `MQMessageQueue`.  Modelled from the spec:
a queue-reference object giving topic, queue id and the owning broker's
service address (used by `getTopic()`, `getQueueId()`, `serviceAddress()`). -/
structure MQMessageQueue where
  topic : String
  queueId : Int
  serviceAddress : String
deriving DecidableEq, Repr

/-- The conversion `Partition::asMessageQueue()`.  Modelled from the spec: "translate
partitions to queue-reference objects" — the queue reference is derived
from the partition's own fields. -/
def Partition.asMessageQueue (p : Partition) : MQMessageQueue :=
  { topic := p.topicName, queueId := p.queueId, serviceAddress := p.brokerAddress }

/-- Route snapshot `TopicRouteData`: immutable snapshot of a topic's partitions
(`topic_route->partitions()`). -/
structure TopicRouteData where
  partitions : List Partition
deriving DecidableEq, Repr

/-- The route table `topic_route_table_`: topic name → cached route.
Embedded as an association list with unique keys looked up by `List.lookup`
(mirroring `contains` / `at` on the hash map). -/
abbrev TopicRouteTable := List (String × TopicRouteData)

/-- State of a single-assignment promise after one code path has run. -/
inductive PromiseResolution (α : Type) where
  | unresolved
  | value (v : α)
deriving DecidableEq, Repr

/-- What `queuesFor` does before returning the future: either it set the
promise synchronously from the cache (fast path, no fetch), or it triggered
exactly one external route fetch (`getRouteFor`) whose completion is handled
by `queuesForCallback`. -/
inductive QueuesForStep where
  | resolvedNow (queues : List MQMessageQueue)
  | fetchTriggered
deriving DecidableEq, Repr

/-- Fast/slow path selection of `PullConsumerImpl::queuesFor`: under the lock,
if the topic is present copy the cached partitions out as message queues and
set the promise; otherwise release the lock and call `getRouteFor` with the
callback embedded as `queuesForCallback`. -/
def queuesFor (table : TopicRouteTable) (topic : String) : QueuesForStep :=
  match table.lookup topic with
  | some topicRoute =>
      QueuesForStep.resolvedNow (topicRoute.partitions.map Partition.asMessageQueue)
  | none => QueuesForStep.fetchTriggered

/-- The slow-path completion callback of `PullConsumerImpl::queuesFor`:
`[promise](const TopicRouteDataPtr& route) { if (route) { ... promise->set_value(...); } }`.
A null route pointer (absent route, or fetch failure surfaced as null) falls
through without touching the promise. -/
def queuesForCallback (route : Option TopicRouteData) :
    PromiseResolution (List MQMessageQueue) :=
  match route with
  | some r => PromiseResolution.value (r.partitions.map Partition.asMessageQueue)
  | none => PromiseResolution.unresolved

/-! ### Offset query path (`PullConsumerImpl::queryOffset`) -/

/-- Policy enum `QueryOffsetPolicy` of the caller-facing `OffsetQuery` (and the matching
wire enum `rmq::QueryOffsetPolicy`). -/
inductive QueryOffsetPolicy where
  | BEGINNING
  | END
  | TIME_POINT
deriving DecidableEq, Repr

/-- Caller-built value object `OffsetQuery`.  The time point is carried as
its `time_since_epoch()` in integral nanoseconds (the precision at which the
code decomposes it via absl durations). -/
structure OffsetQuery where
  policy : QueryOffsetPolicy
  timePointNanos : Int
  messageQueue : MQMessageQueue
deriving DecidableEq, Repr

/-- Wire `google.protobuf.Timestamp`-style time point: `seconds` + `nanos`. -/
structure ProtoTimestamp where
  seconds : Int
  nanos : Int
deriving DecidableEq, Repr

/-- Wire topic resource: `set_name` + `set_arn`. -/
structure ProtoTopic where
  name : String
  arn : String
deriving DecidableEq, Repr

/-- Wire partition reference: topic resource + queue id (`set_id`). -/
structure ProtoPartition where
  topic : ProtoTopic
  id : Int
deriving DecidableEq, Repr

/-- Wire `QueryOffsetRequest`.  `timePoint = none` embeds a protobuf message
whose `time_point` submessage was never touched (`has_time_point()` false). -/
structure QueryOffsetRequest where
  policy : QueryOffsetPolicy
  timePoint : Option ProtoTimestamp
  partition : ProtoPartition
deriving DecidableEq, Repr

/-- Request construction of `PullConsumerImpl::queryOffset` (lines 57-78):
the `switch` on the policy sets the wire policy and, for `TIME_POINT` only,
decomposes the timestamp into whole seconds (absl truncates toward zero)
plus the nanosecond remainder; then the partition reference is populated
from the query's message queue and the consumer's `arn_`. -/
def buildQueryOffsetRequest (arn : String) (query : OffsetQuery) : QueryOffsetRequest :=
  let timePoint : Option ProtoTimestamp :=
    match query.policy with
    | QueryOffsetPolicy.BEGINNING => none
    | QueryOffsetPolicy.END => none
    | QueryOffsetPolicy.TIME_POINT =>
        let seconds := query.timePointNanos.tdiv 1000000000
        some { seconds := seconds, nanos := query.timePointNanos - seconds * 1000000000 }
  { policy := query.policy
    timePoint := timePoint
    partition :=
      { topic := { name := query.messageQueue.topic, arn := arn }
        id := query.messageQueue.queueId } }

/-- One asynchronous unary dispatch to the RPC gateway
(`client_manager_->queryOffset(address, metadata, request, timeout, callback)`). -/
structure QueryOffsetDispatch where
  target : String
  request : QueryOffsetRequest
deriving DecidableEq, Repr

/-- The dispatches `PullConsumerImpl::queryOffset` performs: exactly one call
to the gateway, addressed at the queue's service address, carrying the built
request.  No retry logic exists in this function. -/
def queryOffsetDispatches (arn : String) (query : OffsetQuery) : List QueryOffsetDispatch :=
  [{ target := query.messageQueue.serviceAddress
     request := buildQueryOffsetRequest arn query }]

/-- Wire `QueryOffsetResponse`: the code reads only `response.offset()`. -/
structure QueryOffsetResponse where
  offset : Int
deriving DecidableEq, Repr

/-- Terminal action performed on the `int64_t` promise by the completion
callback: `set_value` or `set_exception` with an `MQClientException`
carrying a message and an error code. -/
inductive OffsetPromiseAction where
  | value (v : Int)
  | exception (message : String) (code : Int)
deriving DecidableEq, Repr

/-- The completion callback of `PullConsumerImpl::queryOffset` (lines 86-93):
`if (ok) { promise->set_value(response.offset()); return; }` else
`set_exception(MQClientException("Failed to query offset", -1, ...))`. -/
def queryOffsetCallback (ok : Bool) (response : QueryOffsetResponse) :
    OffsetPromiseAction :=
  if ok then OffsetPromiseAction.value response.offset
  else OffsetPromiseAction.exception "Failed to query offset" (-1)

/-! ### Pull path (`PullConsumerImpl::pull`) -/

/-- Wire group resource: `set_name` + `set_arn`. -/
structure ProtoGroup where
  name : String
  arn : String
deriving DecidableEq, Repr

/-- Caller-built `PullMessageQuery`: partition reference, starting offset and
maximum await duration (carried in integral nanoseconds, the precision at
which the code decomposes it). -/
structure PullMessageQuery where
  messageQueue : MQMessageQueue
  offset : Int
  awaitTimeNanos : Int
deriving DecidableEq, Repr

/-- Wire `PullMessageRequest` with the fields lines 101-113 populate. -/
structure PullMessageRequest where
  offset : Int
  awaitTime : ProtoTimestamp
  group : ProtoGroup
  partition : ProtoPartition
  clientId : String
deriving DecidableEq, Repr

/-- Request construction of `PullConsumerImpl::pull` (lines 101-113):
offset, await time decomposed into whole seconds (absl truncates toward
zero) plus the nanosecond remainder, group identity, partition reference
and client id. -/
def buildPullRequest (arn groupName clientId : String) (query : PullMessageQuery) :
    PullMessageRequest :=
  let seconds := query.awaitTimeNanos.tdiv 1000000000
  { offset := query.offset
    awaitTime := { seconds := seconds, nanos := query.awaitTimeNanos - seconds * 1000000000 }
    group := { name := groupName, arn := arn }
    partition :=
      { topic := { name := query.messageQueue.topic, arn := arn }
        id := query.messageQueue.queueId }
    clientId := clientId }

/-- One dispatch to the gateway's `pullMessage`. -/
structure PullDispatch where
  target : String
  request : PullMessageRequest
deriving DecidableEq, Repr

/-- Dispatch phase of `PullConsumerImpl::pull`: reads the target broker
address from the queue, asserts it non-empty (`assert(!target_host.empty())`
— `none` embeds the assertion firing: the call dies loudly, nothing is
dispatched and no error is returned), then dispatches to the gateway. -/
def pullDispatch (arn groupName clientId : String) (query : PullMessageQuery) :
    Option PullDispatch :=
  let targetHost := query.messageQueue.serviceAddress
  if targetHost = "" then none
  else some { target := targetHost, request := buildPullRequest arn groupName clientId query }

/-- A wire message inside a pull response; its payload is opaque to this
translation unit (only the external decoder looks inside). -/
structure WireMessage where
  body : String
deriving DecidableEq, Repr

/-- In-memory decoded message (`MQMessageExt`); contents produced by the
external decoder, opaque here. -/
structure MQMessageExt where
  body : String
deriving DecidableEq, Repr

/-- Business status inside the response envelope (`response.common().status()`):
a `google.rpc.Status` code plus message.  `google::rpc::Code::OK` is `0`. -/
structure BizStatus where
  code : Int
  message : String
deriving DecidableEq, Repr

/-- Wire `PullMessageResponse` with the fields the callback reads. -/
structure PullMessageResponse where
  status : BizStatus
  minOffset : Int
  maxOffset : Int
  nextOffset : Int
  messages : List WireMessage
deriving DecidableEq, Repr

/-- The context `InvocationContext<PullMessageResponse>` as the callback uses it:
transport status (`status.ok()`) plus the response.  The callback receives
`none` when the gateway passes a null context. -/
structure InvocationContext where
  statusOk : Bool
  response : PullMessageResponse
deriving DecidableEq, Repr

/-- Caller-visible `PullResult`: envelope offsets plus decoded messages. -/
structure PullResult where
  minOffset : Int
  maxOffset : Int
  nextOffset : Int
  messages : List MQMessageExt
deriving DecidableEq, Repr

/-- One invocation of the caller-supplied `PullCallback` handler. -/
inductive HandlerCall where
  | onSuccess (result : PullResult)
  | onException (message : String) (code : Int)
deriving DecidableEq, Repr

/-- The completion callback of `PullConsumerImpl::pull` (lines 118-142),
returning the list of handler invocations it performs, in order.  `wrap` is
the external decoder `client_manager_->wrapMessage` (`none` = decode
failure).  Classification order mirrors the code: null context or transport
failure first, then non-OK business status, then success with the decoded
messages and the envelope's offsets. -/
def pullCallback (wrap : WireMessage → Option MQMessageExt) (targetHost : String)
    (ctx : Option InvocationContext) : List HandlerCall :=
  match ctx with
  | none =>
      [HandlerCall.onException ("Server[" ++ targetHost ++ "] is not reachable") (-1)]
  | some c =>
      if c.statusOk = false then
        [HandlerCall.onException ("Server[" ++ targetHost ++ "] is not reachable") (-1)]
      else
        let response := c.response
        if response.status.code ≠ 0 then
          [HandlerCall.onException response.status.message response.status.code]
        else
          [HandlerCall.onSuccess
            { minOffset := response.minOffset
              maxOffset := response.maxOffset
              nextOffset := response.nextOffset
              messages := response.messages.filterMap wrap }]

/-! ### Heartbeat contribution (`PullConsumerImpl::prepareHeartbeatData`) -/

/-- One `rmq::HeartbeatEntry`; the code populates only
`producer_group().group()` with the consumer's group resource. -/
structure HeartbeatEntry where
  producerGroup : ProtoGroup
deriving DecidableEq, Repr

/-- Wire `HeartbeatRequest`: the repeated `heartbeats` field the code appends
to, plus the request's other fields (none of which the code touches),
represented by `clientId`. -/
structure HeartbeatRequest where
  heartbeats : List HeartbeatEntry
  clientId : String
deriving DecidableEq, Repr

/-- The heartbeat hook `PullConsumerImpl::prepareHeartbeatData` (lines 150-155): build one
entry carrying `arn_` and `group_name_` and `Add` it to the request's
repeated `heartbeats` field.  Nothing else is read or written. -/
def prepareHeartbeatData (arn groupName : String) (request : HeartbeatRequest) :
    HeartbeatRequest :=
  let entry : HeartbeatEntry := { producerGroup := { name := groupName, arn := arn } }
  { request with heartbeats := request.heartbeats ++ [entry] }

/-! ### Lifecycle state machine (`PullConsumerImpl::shutdown`) -/

/-- The atomic lifecycle enum `ClientImpl::State` shared with the base. -/
inductive ClientState where
  | INITIAL
  | STARTING
  | STARTED
  | STOPPING
  | STOPPED
deriving DecidableEq, Repr

/-- Position of a state along the lifecycle chain. -/
def ClientState.rank : ClientState → Nat
  | ClientState.INITIAL => 0
  | ClientState.STARTING => 1
  | ClientState.STARTED => 2
  | ClientState.STOPPING => 3
  | ClientState.STOPPED => 4

/-- Atomic compare-and-set (`std::atomic::compare_exchange_strong`): replace the state by
`desired` iff it equals `expected`; return the new state and whether this
call won the exchange. -/
def cas (expected desired s : ClientState) : ClientState × Bool :=
  if s = expected then (desired, true) else (s, false)

/-- One atomic lifecycle transition attempt.  `finalShutdown` is the
`compare_exchange_strong(STOPPING, STOPPED)` of `PullConsumerImpl::shutdown`
(line 23).  The other three are modelled from the spec: the shared base
(`ClientImpl`, outside this translation unit) mutates the state "only via
guarded compare-and-set transitions" along
INITIAL→STARTING→STARTED→STOPPING, with `baseShutdown` being the
STARTED→STOPPING step of `ClientImpl::shutdown`. -/
inductive LifecycleEvent where
  | startBegin
  | startEnd
  | baseShutdown
  | finalShutdown
deriving DecidableEq, Repr

/-- Apply one atomic transition attempt to the shared state. -/
def LifecycleEvent.apply (s : ClientState) : LifecycleEvent → ClientState × Bool
  | LifecycleEvent.startBegin => cas ClientState.INITIAL ClientState.STARTING s
  | LifecycleEvent.startEnd => cas ClientState.STARTING ClientState.STARTED s
  | LifecycleEvent.baseShutdown => cas ClientState.STARTED ClientState.STOPPING s
  | LifecycleEvent.finalShutdown => cas ClientState.STOPPING ClientState.STOPPED s

/-- Run a sequence of atomic transition attempts (an arbitrary interleaving
of the per-thread steps), returning the final state and how many
`finalShutdown` attempts won their exchange — each win is exactly one
`SPDLOG_INFO("DefaultMQPullConsumerImpl stopped")` side-effect. -/
def runLifecycle (s : ClientState) : List LifecycleEvent → ClientState × Nat
  | [] => (s, 0)
  | e :: rest =>
      ((runLifecycle (e.apply s).1 rest).1,
       (if e = LifecycleEvent.finalShutdown ∧ (e.apply s).2 = true then 1 else 0) +
         (runLifecycle (e.apply s).1 rest).2)

/-! ### Concrete fixtures used to evaluate the definitions -/

/-- A concrete decoder: accepts a wire message iff its body is non-empty. -/
def wrapExample (w : WireMessage) : Option MQMessageExt :=
  if w.body = "" then none else some { body := w.body }

/-- An OK pull completion carrying three wire messages, the middle one
undecodable by `wrapExample`. -/
def ctxExample : InvocationContext :=
  { statusOk := true
    response :=
      { status := { code := 0, message := "" }
        minOffset := 3
        maxOffset := 9
        nextOffset := 10
        messages := [{ body := "m1" }, { body := "" }, { body := "m3" }] } }

/-- A transport-failed pull completion whose embedded response nevertheless
carries a non-OK business status, to exhibit the classification order. -/
def ctxTransportFail : InvocationContext :=
  { statusOk := false
    response :=
      { status := { code := 99, message := "partition moved" }
        minOffset := 0
        maxOffset := 0
        nextOffset := 0
        messages := [] } }

/-- A concrete queue reference. -/
def queueExample : MQMessageQueue :=
  { topic := "t-end", queueId := 5, serviceAddress := "broker-a:8081" }

/-- A TIME_POINT offset query at 1 234 567 890 ns since the epoch. -/
def tpQueryExample : OffsetQuery :=
  { policy := QueryOffsetPolicy.TIME_POINT
    timePointNanos := 1234567890
    messageQueue := queueExample }

/-- An END offset query. -/
def endQueryExample : OffsetQuery :=
  { policy := QueryOffsetPolicy.END
    timePointNanos := 0
    messageQueue := queueExample }

/-- A concrete cached route with two partitions. -/
def routeExample : TopicRouteData :=
  { partitions :=
      [{ topicName := "t-cached", brokerAddress := "broker-a:8081", queueId := 0 },
       { topicName := "t-cached", brokerAddress := "broker-b:8081", queueId := 1 }] }

/-- A route table holding `routeExample` under `"t-cached"`. -/
def tableExample : TopicRouteTable := [("t-cached", routeExample)]

/-- A pull query addressed at a queue with a non-empty service address. -/
def pullQueryExample : PullMessageQuery :=
  { messageQueue := queueExample, offset := 42, awaitTimeNanos := 3500000000 }

/-- A pull query whose queue has an empty service address. -/
def pullQueryEmptyAddr : PullMessageQuery :=
  { messageQueue := { topic := "t-end", queueId := 5, serviceAddress := "" }
    offset := 42
    awaitTimeNanos := 3500000000 }

/-! ### Helper lemmas -/

/-- Every single atomic lifecycle transition attempt is non-decreasing in
rank: a compare-and-set either fails (state unchanged) or moves the state
one step forward along the chain. -/
theorem rank_le_apply (s : ClientState) (e : LifecycleEvent) :
    s.rank ≤ (e.apply s).1.rank := by
  cases e <;> cases s <;> decide

/-- Running a trace splits across list append. -/
theorem runLifecycle_append (l1 l2 : List LifecycleEvent) (s : ClientState) :
    runLifecycle s (l1 ++ l2) =
      ((runLifecycle (runLifecycle s l1).1 l2).1,
       (runLifecycle s l1).2 + (runLifecycle (runLifecycle s l1).1 l2).2) := by
  induction l1 generalizing s with
  | nil => simp [runLifecycle]
  | cons e rest ih =>
      simp only [List.cons_append, runLifecycle, List.append_eq, ih, Prod.mk.injEq]
      exact ⟨trivial, (Nat.add_assoc _ _ _).symm⟩

/-- From STOPPED every compare-and-set fails: the state is absorbing and no
further "stopped" log can occur. -/
theorem runLifecycle_stopped (t : List LifecycleEvent) :
    runLifecycle ClientState.STOPPED t = (ClientState.STOPPED, 0) := by
  induction t with
  | nil => rfl
  | cons e rest ih => cases e <;> simp [runLifecycle, LifecycleEvent.apply, cas, ih]

/-- From STOPPING, a trace of shutdown steps containing at least one
finalShutdown ends STOPPED with exactly one winning exchange. -/
theorem runLifecycle_stopping (t : List LifecycleEvent)
    (h : ∀ e ∈ t, e = LifecycleEvent.baseShutdown ∨ e = LifecycleEvent.finalShutdown)
    (hmem : LifecycleEvent.finalShutdown ∈ t) :
    runLifecycle ClientState.STOPPING t = (ClientState.STOPPED, 1) := by
  induction t with
  | nil => cases hmem
  | cons e rest ih =>
      rcases h e (List.mem_cons_self e rest) with he | he
      · subst he
        have hmem' : LifecycleEvent.finalShutdown ∈ rest := by
          rcases List.mem_cons.mp hmem with h' | h'
          · cases h'
          · exact h'
        have := ih (fun x hx => h x (List.mem_cons_of_mem _ hx)) hmem'
        simp [runLifecycle, LifecycleEvent.apply, cas, this]
      · subst he
        simp [runLifecycle, LifecycleEvent.apply, cas, runLifecycle_stopped]

/-- From STARTED, a trace consisting only of finalShutdown attempts changes
nothing: the final exchange requires STOPPING. -/
theorem runLifecycle_started_finals (t : List LifecycleEvent)
    (h : ∀ e ∈ t, e = LifecycleEvent.finalShutdown) :
    runLifecycle ClientState.STARTED t = (ClientState.STARTED, 0) := by
  induction t with
  | nil => rfl
  | cons e rest ih =>
      have he := h e (List.mem_cons_self e rest)
      subst he
      have := ih (fun x hx => h x (List.mem_cons_of_mem _ hx))
      simp [runLifecycle, LifecycleEvent.apply, cas, this]

/-! ### Claim theorems -/

/-- C8: for every topic present in the route cache, `queuesFor` synchronously
satisfies the returned future with queue references derived only from the
cached partition route (the partitions mapped through `asMessageQueue`), and
never triggers an external route fetch. -/
theorem queuesFor_cached_synchronous (table : TopicRouteTable) (topic : String)
    (route : TopicRouteData) (h : table.lookup topic = some route) :
    queuesFor table topic =
      QueuesForStep.resolvedNow (route.partitions.map Partition.asMessageQueue) ∧
    queuesFor table topic ≠ QueuesForStep.fetchTriggered := by
  refine ⟨?_, ?_⟩ <;> simp [queuesFor, h]

/-- Witness for C8 at a concrete cached table: the lookup hypothesis holds
and the fast path yields exactly the cached partitions as queues. -/
theorem queuesFor_cached_synchronous_witness :
    tableExample.lookup "t-cached" = some routeExample ∧
    queuesFor tableExample "t-cached" =
      QueuesForStep.resolvedNow
        [{ topic := "t-cached", queueId := 0, serviceAddress := "broker-a:8081" },
         { topic := "t-cached", queueId := 1, serviceAddress := "broker-b:8081" }] := by
  refine ⟨by decide, ?_⟩
  have h := queuesFor_cached_synchronous tableExample "t-cached" routeExample (by decide)
  rw [h.1]
  rfl

/-- C1 (divergence exhibit): on a cache miss, `queuesFor` does trigger the
single external route fetch, but the fetch callback leaves the caller's
promise unresolved when the fetch completes with a null/absent route — the
"resolves exactly once in every completion case" contract fails there. -/
theorem queuesFor_null_route_unresolved :
    queuesFor [] "new-topic" = QueuesForStep.fetchTriggered ∧
    queuesForCallback none = PromiseResolution.unresolved := by
  exact ⟨rfl, rfl⟩

/-- C2: every invocation of the pull completion callback performs exactly one
handler call — one `onSuccess` or one `onException`, never both, never
neither — in every invocation context. -/
theorem pullCallback_exactly_one_handler_call
    (wrap : WireMessage → Option MQMessageExt) (targetHost : String)
    (ctx : Option InvocationContext) :
    (pullCallback wrap targetHost ctx).length = 1 := by
  match ctx with
  | none => rfl
  | some c =>
      simp only [pullCallback]
      split
      · rfl
      · split
        · rfl
        · rfl

/-- C3: for every pull response with transport success and business status
OK, the single handler call is `onSuccess` with a `PullResult` whose
messages are exactly those the decoder accepts (in order, failures dropped)
and whose min/max/next offsets equal the response envelope's values. -/
theorem pullCallback_ok_filters_messages
    (wrap : WireMessage → Option MQMessageExt) (targetHost : String)
    (c : InvocationContext) (hok : c.statusOk = true)
    (hbiz : c.response.status.code = 0) :
    pullCallback wrap targetHost (some c) =
      [HandlerCall.onSuccess
        { minOffset := c.response.minOffset
          maxOffset := c.response.maxOffset
          nextOffset := c.response.nextOffset
          messages := c.response.messages.filterMap wrap }] := by
  simp [pullCallback, hok, hbiz]

/-- Witness for C3 at a concrete OK completion with three wire messages of
which the middle one fails to decode: `onSuccess` receives exactly the two
decodable messages and the envelope's offsets. -/
theorem pullCallback_ok_filters_messages_witness :
    ctxExample.statusOk = true ∧
    ctxExample.response.status.code = 0 ∧
    pullCallback wrapExample "broker-a:8081" (some ctxExample) =
      [HandlerCall.onSuccess
        { minOffset := 3, maxOffset := 9, nextOffset := 10
          messages := [{ body := "m1" }, { body := "m3" }] }] := by
  refine ⟨rfl, rfl, ?_⟩
  have h := pullCallback_ok_filters_messages wrapExample "broker-a:8081" ctxExample rfl rfl
  rw [h]
  rfl

/-- C5: a null invocation context or a transport-level failure makes the
callback invoke `onException` with the "Server[...] is not reachable" error
naming the target address, constructs no `PullResult`, and this
classification happens before the business-status check (the transport-fail
branch wins whatever business status the embedded response carries). -/
theorem pullCallback_transport_failure
    (wrap : WireMessage → Option MQMessageExt) (targetHost : String) :
    (pullCallback wrap targetHost none =
      [HandlerCall.onException ("Server[" ++ targetHost ++ "] is not reachable") (-1)]) ∧
    (∀ c : InvocationContext, c.statusOk = false →
      pullCallback wrap targetHost (some c) =
        [HandlerCall.onException ("Server[" ++ targetHost ++ "] is not reachable") (-1)]) ∧
    (∃ before after : String,
      "Server[" ++ targetHost ++ "] is not reachable" = before ++ targetHost ++ after) ∧
    (∀ r : PullResult, HandlerCall.onSuccess r ∉ pullCallback wrap targetHost none) ∧
    (∀ (c : InvocationContext) (r : PullResult), c.statusOk = false →
      HandlerCall.onSuccess r ∉ pullCallback wrap targetHost (some c)) := by
  refine ⟨rfl, ?_, ⟨"Server[", "] is not reachable", rfl⟩, ?_, ?_⟩
  · intro c hc
    simp [pullCallback, hc]
  · intro r
    simp [pullCallback]
  · intro c r hc
    simp [pullCallback, hc]

/-- Witness for C5 at a concrete transport-failed completion whose embedded
response carries a non-OK business status: the handler still gets the
transport "not reachable" exception, not the business one, and no
`onSuccess` occurs. -/
theorem pullCallback_transport_failure_witness :
    ctxTransportFail.statusOk = false ∧
    pullCallback wrapExample "broker-a:8081" (some ctxTransportFail) =
      [HandlerCall.onException "Server[broker-a:8081] is not reachable" (-1)] ∧
    (∀ r : PullResult,
      HandlerCall.onSuccess r ∉ pullCallback wrapExample "broker-a:8081" (some ctxTransportFail)) := by
  have h := pullCallback_transport_failure wrapExample "broker-a:8081"
  refine ⟨rfl, ?_, fun r => h.2.2.2.2 ctxTransportFail r rfl⟩
  have h2 := h.2.1 ctxTransportFail rfl
  rw [h2]
  decide

/-- C4: for TIME_POINT queries the emitted request's time fields recombine
(seconds × 10⁹ + nanos) to the query's timestamp in nanoseconds; BEGINNING
and END queries populate no time-point fields; and END queries carry the
correct partition reference (topic name, namespace identifier, queue id). -/
theorem queryOffset_request_fields (arn : String) (query : OffsetQuery) :
    (query.policy = QueryOffsetPolicy.TIME_POINT →
      ∃ tp : ProtoTimestamp,
        (buildQueryOffsetRequest arn query).timePoint = some tp ∧
        tp.seconds * 1000000000 + tp.nanos = query.timePointNanos) ∧
    (query.policy = QueryOffsetPolicy.BEGINNING ∨ query.policy = QueryOffsetPolicy.END →
      (buildQueryOffsetRequest arn query).timePoint = none) ∧
    (query.policy = QueryOffsetPolicy.END →
      (buildQueryOffsetRequest arn query).partition =
        { topic := { name := query.messageQueue.topic, arn := arn }
          id := query.messageQueue.queueId }) := by
  refine ⟨?_, ?_, ?_⟩
  · intro hp
    refine ⟨{ seconds := query.timePointNanos.tdiv 1000000000
              nanos := query.timePointNanos -
                query.timePointNanos.tdiv 1000000000 * 1000000000 }, ?_, ?_⟩
    · simp [buildQueryOffsetRequest, hp]
    · show query.timePointNanos.tdiv 1000000000 * 1000000000 +
        (query.timePointNanos -
          query.timePointNanos.tdiv 1000000000 * 1000000000) = query.timePointNanos
      ring
  · rintro (hp | hp) <;> simp [buildQueryOffsetRequest, hp]
  · intro hp
    simp [buildQueryOffsetRequest]

/-- Witness for C4 at a concrete TIME_POINT query (1 second + 234 567 890 ns)
and a concrete END query: the recombination identity, the absent time point
and the END partition reference all hold at those inputs. -/
theorem queryOffset_request_fields_witness :
    (tpQueryExample.policy = QueryOffsetPolicy.TIME_POINT ∧
      ∃ tp : ProtoTimestamp,
        (buildQueryOffsetRequest "arn-x" tpQueryExample).timePoint = some tp ∧
        tp.seconds * 1000000000 + tp.nanos = 1234567890) ∧
    (endQueryExample.policy = QueryOffsetPolicy.END ∧
      (buildQueryOffsetRequest "arn-x" endQueryExample).timePoint = none ∧
      (buildQueryOffsetRequest "arn-x" endQueryExample).partition =
        { topic := { name := "t-end", arn := "arn-x" }, id := 5 }) := by
  refine ⟨⟨rfl, (queryOffset_request_fields "arn-x" tpQueryExample).1 rfl⟩,
          rfl, (queryOffset_request_fields "arn-x" endQueryExample).2.1 (Or.inr rfl), ?_⟩
  have h := (queryOffset_request_fields "arn-x" endQueryExample).2.2 rfl
  rw [h]
  decide

/-- C6: the queryOffset completion callback fails the promise with the
"Failed to query offset" error when the transport call failed, resolves it
with the response's offset when it succeeded, and `queryOffset` performs
exactly one dispatch (no retry at this layer). -/
theorem queryOffset_completion_no_retry (arn : String) (query : OffsetQuery)
    (response : QueryOffsetResponse) :
    queryOffsetCallback false response =
      OffsetPromiseAction.exception "Failed to query offset" (-1) ∧
    queryOffsetCallback true response = OffsetPromiseAction.value response.offset ∧
    (queryOffsetDispatches arn query).length = 1 := by
  exact ⟨rfl, rfl, rfl⟩

/-- C9: `prepareHeartbeatData` appends exactly one heartbeat entry carrying
the consumer's group identity (namespace identifier and group name), keeps
every entry already present in the request in place, and leaves the
request's other fields unchanged — it writes nothing but the output
parameter. -/
theorem prepareHeartbeatData_additive (arn groupName : String)
    (request : HeartbeatRequest) :
    (prepareHeartbeatData arn groupName request).heartbeats =
      request.heartbeats ++ [{ producerGroup := { name := groupName, arn := arn } }] ∧
    (prepareHeartbeatData arn groupName request).heartbeats.length =
      request.heartbeats.length + 1 ∧
    (prepareHeartbeatData arn groupName request).heartbeats.take
        request.heartbeats.length = request.heartbeats ∧
    (prepareHeartbeatData arn groupName request).clientId = request.clientId := by
  refine ⟨rfl, by simp [prepareHeartbeatData], ?_, rfl⟩
  simp [prepareHeartbeatData, List.take_append]

/-- C10: `pull` dispatches iff the target broker address from the query's
partition reference is non-empty; with the precondition met the assertion
never fires and the dispatch targets that address, while an empty address
fails loudly at assertion level — nothing is dispatched and no recoverable
error is produced. -/
theorem pull_target_precondition (arn groupName clientId : String)
    (query : PullMessageQuery) :
    (query.messageQueue.serviceAddress ≠ "" →
      pullDispatch arn groupName clientId query =
        some { target := query.messageQueue.serviceAddress
               request := buildPullRequest arn groupName clientId query }) ∧
    (query.messageQueue.serviceAddress = "" →
      pullDispatch arn groupName clientId query = none) := by
  constructor
  · intro h
    simp [pullDispatch, h]
  · intro h
    simp [pullDispatch, h]

/-- Witness for C10 at a concrete non-empty address (the assertion passes and
the dispatch is emitted) and a concrete empty address (the assertion fires
and nothing is dispatched). -/
theorem pull_target_precondition_witness :
    (pullQueryExample.messageQueue.serviceAddress ≠ "" ∧
      pullDispatch "arn-x" "group-g" "client-1" pullQueryExample =
        some { target := "broker-a:8081"
               request := buildPullRequest "arn-x" "group-g" "client-1" pullQueryExample }) ∧
    (pullQueryEmptyAddr.messageQueue.serviceAddress = "" ∧
      pullDispatch "arn-x" "group-g" "client-1" pullQueryEmptyAddr = none) := by
  refine ⟨⟨by decide, ?_⟩, rfl,
    (pull_target_precondition "arn-x" "group-g" "client-1" pullQueryEmptyAddr).2 rfl⟩
  have h := (pull_target_precondition "arn-x" "group-g" "client-1" pullQueryExample).1
    (by decide)
  rw [h]
  decide

/-- C7: lifecycle transitions are monotonic along the chain
INITIAL→STARTING→STARTED→STOPPING→STOPPED (no trace of compare-and-set
attempts ever lowers the rank), and for any interleaving of concurrent
shutdown calls from STARTED — some finalShutdown attempts, then the first
successful base STARTED→STOPPING step, then the remaining shutdown steps
including at least one finalShutdown — exactly one finalShutdown attempt
wins the STOPPING→STOPPED exchange (one "stopped" log) and the final state
is STOPPED. -/
theorem lifecycle_monotonic_single_winner :
    (∀ (s : ClientState) (events : List LifecycleEvent),
      s.rank ≤ (runLifecycle s events).1.rank) ∧
    (∀ t1 t2 : List LifecycleEvent,
      (∀ e ∈ t1, e = LifecycleEvent.finalShutdown) →
      (∀ e ∈ t2, e = LifecycleEvent.baseShutdown ∨ e = LifecycleEvent.finalShutdown) →
      LifecycleEvent.finalShutdown ∈ t2 →
      runLifecycle ClientState.STARTED (t1 ++ LifecycleEvent.baseShutdown :: t2) =
        (ClientState.STOPPED, 1)) := by
  constructor
  · intro s events
    induction events generalizing s with
    | nil => exact Nat.le_refl _
    | cons e rest ih =>
        exact Nat.le_trans (rank_le_apply s e) (ih (e.apply s).1)
  · intro t1 t2 h1 h2 hmem
    rw [runLifecycle_append]
    rw [runLifecycle_started_finals t1 h1]
    have hstopping := runLifecycle_stopping t2 h2 hmem
    simp [runLifecycle, LifecycleEvent.apply, cas, hstopping]

/-- Witness for C7: a concrete interleaving of three shutdown calls — a
premature final attempt, the winning base step, then final, base and final
attempts — ends STOPPED with exactly one winning exchange. -/
theorem lifecycle_monotonic_single_winner_witness :
    (∀ e ∈ [LifecycleEvent.finalShutdown], e = LifecycleEvent.finalShutdown) ∧
    (∀ e ∈ [LifecycleEvent.finalShutdown, LifecycleEvent.baseShutdown,
            LifecycleEvent.finalShutdown],
      e = LifecycleEvent.baseShutdown ∨ e = LifecycleEvent.finalShutdown) ∧
    LifecycleEvent.finalShutdown ∈
      [LifecycleEvent.finalShutdown, LifecycleEvent.baseShutdown,
       LifecycleEvent.finalShutdown] ∧
    runLifecycle ClientState.STARTED
      ([LifecycleEvent.finalShutdown] ++ LifecycleEvent.baseShutdown ::
        [LifecycleEvent.finalShutdown, LifecycleEvent.baseShutdown,
         LifecycleEvent.finalShutdown]) = (ClientState.STOPPED, 1) := by
  refine ⟨by decide, by decide, by decide, ?_⟩
  exact lifecycle_monotonic_single_winner.2 [LifecycleEvent.finalShutdown]
    [LifecycleEvent.finalShutdown, LifecycleEvent.baseShutdown,
     LifecycleEvent.finalShutdown] (by decide) (by decide) (by decide)

end RocketMQ
